import Mathlib

/-!
Shallow embedding of the enterprise-project-management frontend core:
the HTTP client (`src/frontend_web_app/src/api/client.js`), the
endpoint-prober loops of the feature pages
(`ProtectedRoute.js` / ProjectsPage, `unnamed/part_000` / UsersPage),
the auth context (`AuthContext.js`) and the UI loading hub
(`UIContext.js`).
-/

/-- JavaScript values as produced by JSON parsing plus `undefined`.
Numbers are modelled as integers (all ids and statuses in play are
integral); `NaN` is not modelled. -/
inductive Js where
  | undefined
  | null
  | bool (b : Bool)
  | num (n : Int)
  | str (s : String)
  | arr (elems : List Js)
  | obj (fields : List (String × Js))

/-- JavaScript truthiness: `undefined`, `null`, `false`, `0` and `""`
are falsy, everything else (including empty arrays and objects) truthy. -/
def truthy : Js → Bool
  | .undefined => false
  | .null => false
  | .bool b => b
  | .num n => n != 0
  | .str s => s != ""
  | .arr _ => true
  | .obj _ => true

/-- `Array.isArray`. -/
def isArr : Js → Bool
  | .arr _ => true
  | _ => false

/-- Property access `v.k` on non-nullish values: fields of objects,
`undefined` everywhere else (scalar and array wrappers carry none of the
property names used by this code base). -/
def jsField : Js → String → Js
  | .obj fs, k => match fs.lookup k with
    | some v => v
    | none => .undefined
  | _, _ => .undefined

/-- JavaScript `a || b` (value-returning disjunction). -/
def jsOr (a b : Js) : Js := if truthy a then a else b

/-- JavaScript `a && b` (value-returning conjunction). -/
def jsAnd (a b : Js) : Js := if truthy a then b else a

/-- `typeof v === "object"` (true for objects, arrays and `null`). -/
def typeofObject : Js → Bool
  | .null => true
  | .arr _ => true
  | .obj _ => true
  | _ => false

/-- String conversion as used in template literals; arrays/objects only
appear stringified in paths when the backend sends non-scalar ids, which
no claim exercises, so those cases are rough. -/
def jsToString : Js → String
  | .undefined => "undefined"
  | .null => "null"
  | .bool b => if b then "true" else "false"
  | .num n => toString n
  | .str s => s
  | .arr _ => ""
  | .obj _ => "[object Object]"

/-- Strict equality `===` on the scalar values that ids take; two
distinct object/array references are never strictly equal, and reference
identity is not modelled, so composite values compare unequal. -/
def strictEq : Js → Js → Bool
  | .null, .null => true
  | .undefined, .undefined => true
  | .bool a, .bool b => a == b
  | .num a, .num b => a == b
  | .str a, .str b => a == b
  | _, _ => false

/-- Object spread update `{...v, k: val}`: an existing key keeps its
position with the new value, a new key is appended. Spreading a
non-object yields an object with just the override. -/
def setField (v : Js) (k : String) (val : Js) : Js :=
  match v with
  | .obj fs =>
    if fs.any (fun f => f.1 == k) then
      .obj (fs.map (fun f => if f.1 == k then (k, val) else f))
    else .obj (fs ++ [(k, val)])
  | _ => .obj [(k, val)]

/-- Optional chaining `v?.k`. -/
def optChain (v : Js) (k : String) : Js :=
  match v with
  | .null => .undefined
  | .undefined => .undefined
  | w => jsField w k

/-- Loose inequality `v != null`, false exactly on `null`/`undefined`. -/
def looseNeqNull : Js → Bool
  | .null => false
  | .undefined => false
  | _ => true

/-- A thrown error value: `new Error(message)` with the `status` and
`data` fields the HTTP client attaches on non-2xx responses. -/
structure JsError where
  message : Js
  status : Option Int
  data : Js

/-- `new Error(msg)` without HTTP metadata. -/
def jsError (msg : String) : JsError := ⟨.str msg, none, .undefined⟩

/-- A toast as stored by `pushToast` (UIContext.js): id/ttl bookkeeping
is omitted, the `type`/`title`/`description` payload is kept. -/
structure Toast where
  type : String
  title : String
  description : Js

/-- `pushToast({type, title})` with no description stores `""`. -/
def successToast (title : String) : Toast := ⟨"success", title, .str ""⟩

/-- `pushToast({type:"error", title, description})`; a falsy description
defaults to `""`. -/
def errorToast (title : String) (desc : Js) : Toast :=
  ⟨"error", title, jsOr desc (.str "")⟩

/-- HTTP verbs exposed by the client. -/
inductive Method where
  | GET
  | POST
  | PUT
  | PATCH
  | DELETE
deriving DecidableEq

/-- The injected API client as the feature modules see it: a total map
from (method, path, body) to a settled outcome. `Js.undefined` stands for an
absent body (GET/DELETE calls). -/
def Api := Method → String → Js → Except JsError Js

/-! ## HTTP client (`src/frontend_web_app/src/api/client.js`) -/

/-- A settled `fetch` response: resolved status code and raw body text.
`res.ok` is by definition `200 ≤ status ≤ 299`. -/
structure FetchResponse where
  status : Int
  text : String

/-- `safeJsonParse` (client.js lines 26-32): empty text parses to
`null`; a parse failure returns the raw text itself. `JSON.parse` is an
external primitive and is passed in as the oracle `parse` (`none`
meaning it throws). -/
def safeJsonParse (parse : String → Option Js) (text : String) : Js :=
  if text == "" then .null
  else match parse text with
    | some v => v
    | none => .str text

/-- The error message computed by `request` on a non-2xx response
(client.js lines 73-76):
`(data && (data.detail || data.message || data.error)) ||
 (typeof data === "string" ? data : null) ||
 "Request failed (<status>)"`. -/
def requestErrMessage (data : Js) (status : Int) : Js :=
  jsOr
    (jsAnd data
      (jsOr (jsField data "detail")
        (jsOr (jsField data "message") (jsField data "error"))))
    (jsOr
      (match data with
        | .str s => Js.str s
        | _ => Js.null)
      (.str ("Request failed (" ++ toString status ++ ")")))

/-- `request` (client.js lines 50-88), given the outcome of `fetch`
(either a transport error or a settled response). Returns the settled
result together with the `onLoading` emissions in order: `true` is
emitted right before the request is issued, `false` in the `finally`
block after it settles either way. URL/headers assembly does not affect
any claim and is omitted. -/
def request (parse : String → Option Js) (fetchResult : Except JsError FetchResponse) :
    Except JsError Js × List Bool :=
  match fetchResult with
  | .error e => (.error e, [true, false])
  | .ok res =>
    let data := safeJsonParse parse res.text
    if 200 ≤ res.status ∧ res.status ≤ 299 then
      (.ok data, [true, false])
    else
      (.error ⟨requestErrMessage data res.status, some res.status, data⟩, [true, false])

/-! ## Endpoint-prober loops

Two loop shapes occur in the source. The return-style loop (ProjectsPage
`load`, AuthContext `login`/`register`) returns the first non-failing
candidate result from inside the `try`. The break-style loop (UsersPage
`submitInvite`/`updateUserRole`) breaks out on the first resolved
candidate and only afterwards checks `if (!result) throw lastErr || gen`,
so a falsy (null/empty) resolved body fails the whole operation. Both
are modelled on the list of settled candidate outcomes, returning the
result together with how many candidates were attempted. -/

/-- Return-style loop body, threading `lastErr`. -/
def probeFrom (gen : JsError) (last : Option JsError) :
    List (Except JsError Js) → Except JsError Js × Nat
  | [] => (.error (last.getD gen), 0)
  | .ok a :: _ => (.ok a, 1)
  | .error e :: rest =>
    let r := probeFrom gen (some e) rest
    (r.1, r.2 + 1)

/-- `let lastErr = null; for (c of cs) { try { return f(c) } catch (e)
{ lastErr = e } } throw lastErr || gen` over the settled candidate
outcomes. -/
def probe (gen : JsError) (cs : List (Except JsError Js)) :
    Except JsError Js × Nat :=
  probeFrom gen none cs

/-- Break-style loop body, threading `lastErr`. -/
def probeBreakFrom (gen : JsError) (last : Option JsError) :
    List (Except JsError Js) → Except JsError Js × Nat
  | [] => (.error (last.getD gen), 0)
  | .ok a :: _ => (if truthy a then .ok a else .error (last.getD gen), 1)
  | .error e :: rest =>
    let r := probeBreakFrom gen (some e) rest
    (r.1, r.2 + 1)

/-- `let x = null, lastErr = null; for (c of cs) { try { x = f(c);
break } catch (e) { lastErr = e } } if (!x) throw lastErr || gen`. -/
def probeBreak (gen : JsError) (cs : List (Except JsError Js)) :
    Except JsError Js × Nat :=
  probeBreakFrom gen none cs

/-! ## List normalization and client-side validation -/

/-- `normalizeList` (ProjectsPage lines 31-37 and UsersPage lines 6-12,
identical copies). -/
def normalizeList (data : Js) : List Js :=
  if truthy data then
    match data with
    | .arr xs => xs
    | _ =>
      match jsField data "items" with
      | .arr xs => xs
      | _ =>
        match jsField data "data" with
        | .arr xs => xs
        | _ => []
  else []

/-- `name.trim().length`: length of the string with whitespace removed
from both ends, modelled on the character list (JavaScript trims
Unicode whitespace; every input in play is ASCII). -/
def jsTrimLen (s : String) : Nat :=
  ((s.toList.dropWhile Char.isWhitespace).reverse.dropWhile
    Char.isWhitespace).length

/-- `validateProject` (ProjectsPage lines 39-43): the errors object,
keyed by field name. -/
def validateProject (name : String) : List (String × String) :=
  if name == "" || jsTrimLen name < 2 then
    [("name", "Name must be at least 2 characters.")]
  else []

/-- Whether a character matches `\S` (ASCII whitespace approximation of
the JavaScript class; every input in play is ASCII). -/
def nonSpaceChar (c : Char) : Bool :=
  !(c == ' ' || c == '\t' || c == '\n' || c == '\r' ||
    c == '\x0b' || c == '\x0c')

/-- `/\S+@\S+\.\S+/.test(email)`: the string contains a contiguous
non-whitespace run of the form `x@y.z` with `x`, `y`, `z` nonempty,
i.e. positions `i < j` with `'@'` at `i`, `'.'` at `j`, at least one
character strictly between and around them, all non-whitespace. -/
def emailRegexTest (email : String) : Bool :=
  let cs := email.toList
  (List.range cs.length).any fun i =>
    (List.range cs.length).any fun j =>
      decide (1 ≤ i) && decide (i + 2 ≤ j) && decide (j + 1 < cs.length) &&
      (cs.getD i ' ' == '@') && (cs.getD j ' ' == '.') &&
      ((List.range (j + 2 - (i - 1))).all fun d =>
        nonSpaceChar (cs.getD (i - 1 + d) ' '))

/-- `validateUser` (UsersPage lines 14-18). -/
def validateUser (email : String) : List (String × String) :=
  if email == "" || !emailRegexTest email then
    [("email", "Valid email required.")]
  else []

/-! ## ProjectsPage operations (`ProtectedRoute.js`, second module) -/

/-- Generic error used when the projects loop ends with no recorded
error (`throw lastErr || new Error("Unable to load projects.")`). -/
def unableToLoadProjects : JsError := jsError "Unable to load projects."

/-- Outcome of a feature operation: the resulting component state plus
the toasts pushed and the number of candidates attempted. -/
structure LoadResult where
  projects : Except JsError (List Js)
  attempted : Nat

/-- `load` (ProjectsPage lines 70-84): GET `/projects` then
`/api/projects`; the first success is normalized into the projects
state, errors are retained and the last one rethrown. -/
def loadProjects (api : Api) : LoadResult :=
  let r := probe unableToLoadProjects
    ((["/projects", "/api/projects"]).map (fun p => api .GET p .undefined))
  ⟨r.1.map normalizeList, r.2⟩

/-- The project form state `{name, description, status}`. -/
structure ProjectForm where
  name : String
  description : String
  status : String

/-- The JSON body sent for a project form. -/
def projectBody (f : ProjectForm) : Js :=
  .obj [("name", .str f.name), ("description", .str f.description),
        ("status", .str f.status)]

/-- Result of `save`: the errors attached to state, the network calls
issued, the toasts pushed and the resulting list/mode/selection state. -/
structure SaveResult where
  errors : List (String × String)
  calls : List (Method × String)
  toasts : List Toast
  projects : List Js
  mode : String
  selected : Js

/-- `save` (ProjectsPage lines 111-132): validates first and bails out
with field errors and no network call; otherwise POSTs a create or PUTs
an edit, updating list state and toasting. -/
def save (api : Api) (mode : String) (selected : Js) (form : ProjectForm)
    (projects : List Js) : SaveResult :=
  let v := validateProject form.name
  if !v.isEmpty then ⟨v, [], [], projects, mode, selected⟩
  else if mode == "create" then
    match api .POST "/projects" (projectBody form) with
    | .ok created =>
      ⟨v, [(.POST, "/projects")], [successToast "Project created"],
        (created :: projects).filter truthy, "none", selected⟩
    | .error e =>
      ⟨v, [(.POST, "/projects")], [errorToast "Save failed" e.message],
        projects, mode, selected⟩
  else if mode == "edit" && looseNeqNull (optChain selected "id") then
    let path := "/projects/" ++ jsToString (jsField selected "id")
    match api .PUT path (projectBody form) with
    | .ok updated =>
      ⟨v, [(.PUT, path)], [successToast "Project updated"],
        projects.map (fun p =>
          if strictEq (jsField p "id") (jsField selected "id") then updated else p),
        "none", updated⟩
    | .error e =>
      ⟨v, [(.PUT, path)], [errorToast "Save failed" e.message],
        projects, mode, selected⟩
  else ⟨v, [], [], projects, mode, selected⟩

/-- Result of `archiveOrDelete`: list state, toasts, calls issued. -/
structure ArchiveResult where
  projects : List Js
  toasts : List Toast
  calls : List (Method × String)

/-- `archiveOrDelete` (ProjectsPage lines 134-153): PATCH the project to
archived; on failure fall back to DELETE; if that also fails push a
single error toast and leave the list untouched. -/
def archiveOrDelete (api : Api) (projects : List Js) (p : Js) : ArchiveResult :=
  let path := "/projects/" ++ jsToString (jsField p "id")
  match api .PATCH path (.obj [("status", .str "archived")]) with
  | .ok _ =>
    ⟨projects.map (fun x =>
        if strictEq (jsField x "id") (jsField p "id") then
          setField x "status" (.str "archived")
        else x),
      [successToast "Project archived"], [(.PATCH, path)]⟩
  | .error _ =>
    match api .DELETE path .undefined with
    | .ok _ =>
      ⟨projects.filter (fun x => !strictEq (jsField x "id") (jsField p "id")),
        [successToast "Project deleted"], [(.PATCH, path), (.DELETE, path)]⟩
    | .error e =>
      ⟨projects, [errorToast "Action failed" e.message],
        [(.PATCH, path), (.DELETE, path)]⟩

/-! ## UsersPage operations (`src/unnamed/part_000`) -/

/-- The invite form state `{email, name, roleId}`. -/
structure InviteForm where
  email : String
  name : String
  roleId : String

/-- The JSON body sent for an invite form (the whole form object). -/
def inviteBody (f : InviteForm) : Js :=
  .obj [("email", .str f.email), ("name", .str f.name),
        ("roleId", .str f.roleId)]

/-- The invite candidate paths, in order (lines 92-96). -/
def inviteCandidates : List String := ["/users/invite", "/invite", "/users"]

/-- Outcome of a users-page mutation. -/
structure UsersResult where
  errors : List (String × String)
  users : List Js
  toasts : List Toast
  attempted : Nat

/-- `submitInvite` (UsersPage lines 85-116): validate, then POST the
candidates break-style; a falsy resolved body falls into
`if (!created) throw lastErr || new Error("Invite failed.")`, whose
error the outer catch turns into an error toast. -/
def submitInvite (api : Api) (form : InviteForm) (users : List Js) : UsersResult :=
  let v := validateUser form.email
  if !v.isEmpty then ⟨v, users, [], 0⟩
  else
    let r := probeBreak (jsError "Invite failed.")
      (inviteCandidates.map (fun p => api .POST p (inviteBody form)))
    match r.1 with
    | .ok created =>
      ⟨v, (created :: users).filter truthy,
        [successToast "User invited/created"], r.2⟩
    | .error e => ⟨v, users, [errorToast "Invite failed" e.message], r.2⟩

/-- The role-update candidates, in order (lines 122-126): method, path
and body. -/
def roleCandidates (userId : Js) (roleId : String) : List (Method × String × Js) :=
  [(.PUT, "/users/" ++ jsToString userId ++ "/role", .obj [("roleId", .str roleId)]),
   (.PATCH, "/users/" ++ jsToString userId, .obj [("roleId", .str roleId)]),
   (.POST, "/users/" ++ jsToString userId ++ "/roles", .obj [("roleId", .str roleId)])]

/-- `updateUserRole` (UsersPage lines 118-145): break-style loop over
the role candidates; `if (!updated) throw lastErr ||
new Error("Role update failed.")`; the outer catch pushes an error
toast and leaves the users list untouched. -/
def updateUserRole (api : Api) (userId : Js) (roleId : String)
    (users : List Js) : UsersResult :=
  let r := probeBreak (jsError "Role update failed.")
    ((roleCandidates userId roleId).map (fun c => api c.1 c.2.1 c.2.2))
  match r.1 with
  | .ok updated =>
    ⟨[], users.map (fun u =>
        if strictEq (jsField u "id") userId then updated else u),
      [successToast "Role updated"], r.2⟩
  | .error e => ⟨[], users, [errorToast "Update failed" e.message], r.2⟩

/-! ## AuthContext (`src/frontend_web_app/src/context/AuthContext.js`) -/

/-- `normalizeAuthResponse` (lines 7-15): token field extraction in the
order `access_token`, `token`, `jwt`, guarded by
`data && typeof data === "object"`; returns `null` when nothing
extractable is found. -/
def normalizeAuthResponse (data : Js) : Js :=
  if truthy data && typeofObject data then
    if truthy (jsField data "access_token") then jsField data "access_token"
    else if truthy (jsField data "token") then jsField data "token"
    else if truthy (jsField data "jwt") then jsField data "jwt"
    else .null
  else .null

/-- The candidate profile paths of `bestEffortGetMe` (lines 17-30). -/
def meCandidates : List String := ["/auth/me", "/me", "/users/me", "/api/me"]

/-- Loop body of `bestEffortGetMe`: a truthy resolved body is returned,
a falsy one or any error silently moves on; exhaustion yields `null`. -/
def bestEffortGetMeGo (getMe : String → Except JsError Js) :
    List String → Js
  | [] => .null
  | p :: rest =>
    match getMe p with
    | .ok me => if truthy me then me else bestEffortGetMeGo getMe rest
    | .error _ => bestEffortGetMeGo getMe rest

/-- `bestEffortGetMe` (lines 17-30). -/
def bestEffortGetMe (getMe : String → Except JsError Js) : Js :=
  bestEffortGetMeGo getMe meCandidates

/-- The login candidates (lines 76-81): path and body; the `/token`
candidate uses the OAuth2 form-style field names. -/
def loginCandidates (email password : String) : List (String × Js) :=
  [("/auth/login", .obj [("email", .str email), ("password", .str password)]),
   ("/login", .obj [("email", .str email), ("password", .str password)]),
   ("/token", .obj [("username", .str email), ("password", .str password)])]

/-- What `login` leaves behind: the returned/thrown result and the
credential written to the token store (`setToken`), if any. -/
structure LoginOutcome where
  result : Except JsError (Js × Js)
  stored : Option Js

/-- Loop body of `login` (lines 84-102): POST each candidate; a resolved
response without an extractable token throws
`new Error("Login response did not include a token.")` inside the same
`try`, so it is recorded as that candidate's failure and the loop moves
on; the first extractable token is persisted and the profile fetched
best-effort. -/
def loginGo (api : Api) (getMe : String → Except JsError Js) :
    List (String × Js) → Option JsError → LoginOutcome
  | [], last => ⟨.error (last.getD (jsError "Login failed.")), none⟩
  | c :: rest, _ =>
    match api .POST c.1 c.2 with
    | .error e => loginGo api getMe rest (some e)
    | .ok data =>
      let jwt := normalizeAuthResponse data
      if truthy jwt then ⟨.ok (jwt, bestEffortGetMe getMe), some jwt⟩
      else loginGo api getMe rest
        (some (jsError "Login response did not include a token."))

/-- `login` (AuthContext lines 73-105). -/
def login (api : Api) (getMe : String → Except JsError Js)
    (email password : String) : LoginOutcome :=
  loginGo api getMe (loginCandidates email password) none

/-! ## UIContext loading signal (`src/frontend_web_app/src/context/UIContext.js`)

`setLoading` (lines 19-31) keeps one pending hide timer: every call
first runs `clearTimeout`; `setLoading(true)` turns the flag on
immediately; `setLoading(false)` schedules the flag off 150ms later.
Time is modelled in integral milliseconds; the provider state is the
flag plus the absolute due time of the pending timer, if any. A
timeline is a time-sorted list of `setLoading` calls, and the observable
flag at a query instant is obtained by replaying the calls at or before
it, firing the pending timer whenever its due time has passed. -/

/-- The grace window of the trailing-edge hide (ms). -/
def graceMs : Nat := 150

/-- Provider state: the `globalLoading` flag and the pending
`loadingTimer` due time. -/
structure UIState where
  loading : Bool
  timer : Option Nat

/-- Fire the pending hide timer if it is due at instant `t`
(`setTimeout(() => setGlobalLoading(false), 150)` running). -/
def fireTimer (t : Nat) (s : UIState) : UIState :=
  match s.timer with
  | some due => if due ≤ t then ⟨false, none⟩ else s
  | none => s

/-- One `setLoading(b)` call at instant `t`: `clearTimeout` drops any
pending timer; `true` sets the flag now, `false` schedules the hide at
`t + 150`. -/
def applyCall (t : Nat) (b : Bool) (s : UIState) : UIState :=
  if b then ⟨true, none⟩ else ⟨s.loading, some (t + graceMs)⟩

/-- Replay the timeline up to query instant `q` (calls later than `q`
have not happened yet) and read the flag, firing the timer as the clock
passes each due time. The timeline must be time-sorted, as schedules of
real call sequences are. -/
def signalGo (q : Nat) : List (Nat × Bool) → UIState → Bool
  | [], s => (fireTimer q s).loading
  | (t, b) :: rest, s =>
    if t ≤ q then signalGo q rest (applyCall t b (fireTimer t s))
    else (fireTimer q s).loading

/-- The observable `globalLoading` flag at instant `q` under the given
timeline of `setLoading` calls, starting from the initial idle state. -/
def signalAt (calls : List (Nat × Bool)) (q : Nat) : Bool :=
  signalGo q calls ⟨false, none⟩

/-- The spec scenario's timeline: requests starting at `t0` and
`t0+10`, completing at `t0+40` and `t0+50` (both done by `t0+50`). -/
def sched (t0 : Nat) : List (Nat × Bool) :=
  [(t0, true), (t0 + 10, true), (t0 + 40, false), (t0 + 50, false)]

/-! ## Concrete fixtures for counterexamples and witnesses -/

/-- A failed-candidate error with HTTP metadata. -/
def errBoom : JsError := ⟨.str "boom", some 500, .null⟩

/-- Another failed-candidate error. -/
def errA : JsError := ⟨.str "errA", some 500, .null⟩

/-- A third failed-candidate error. -/
def errB : JsError := ⟨.str "errB", some 404, .null⟩

/-- Backend where `/users/invite` rejects and every other call resolves
with a null (empty) body. -/
def apiInviteNull : Api := fun _ p _ =>
  if p == "/users/invite" then .error errBoom else .ok .null

/-- Backend where every call resolves with a null body. -/
def apiNullBody : Api := fun _ _ _ => .ok .null

/-- Backend where `/projects` fails with `errA` and everything else
fails with `errB`. -/
def apiAllFail : Api := fun _ p _ =>
  if p == "/projects" then .error errA else .error errB

/-- Backend where `/auth/login` resolves with `{access_token:"abc"}`
and everything else fails. -/
def apiLoginOk : Api := fun _ p _ =>
  if p == "/auth/login" then .ok (.obj [("access_token", .str "abc")])
  else .error errA

/-- A profile fetcher whose candidates all fail. -/
def getMeFail : String → Except JsError Js := fun _ => .error errA

/-- A filled invite form with a valid email. -/
def formInvite : InviteForm := ⟨"a@b.c", "", ""⟩

/-- A project entry. -/
def proj1 : Js := .obj [("id", .num 1), ("status", .str "active")]

/-- A `JSON.parse` oracle for the single body text `"oops"` (a valid
JSON document encoding the string `oops`); everything else throws. -/
def parseOops : String → Option Js := fun s =>
  if s == "\"oops\"" then some (.str "oops") else none

/-- Backend where every call resolves with an empty object (a 2xx
response carrying no token field). -/
def apiNoToken : Api := fun _ _ _ => .ok (.obj [])

/-! ## Shared prober lemmas -/

/-- Return-style loop: a leading block of failures followed by a
success yields that success after attempting exactly the failing
candidates plus the succeeding one, whatever follows. -/
theorem probeFrom_append_ok (gen : JsError) (errs : List JsError) :
    ∀ (last : Option JsError) (a : Js) (rest : List (Except JsError Js)),
    probeFrom gen last (errs.map Except.error ++ .ok a :: rest) =
      (.ok a, errs.length + 1) := by
  induction errs with
  | nil => intro last a rest; rfl
  | cons e errs ih =>
    intro last a rest
    simp only [List.map_cons, List.cons_append, probeFrom, List.append_eq]
    rw [ih]
    simp

/-- Return-style loop: when every candidate fails, the retained error
is the last one and every candidate was attempted. -/
theorem probeFrom_all_fail (gen e : JsError) (errs : List JsError) :
    ∀ last : Option JsError,
    probeFrom gen last (errs.map Except.error ++ [.error e]) =
      (.error e, errs.length + 1) := by
  induction errs with
  | nil => intro last; rfl
  | cons f errs ih =>
    intro last
    simp only [List.map_cons, List.cons_append, probeFrom, List.append_eq]
    rw [ih]
    simp

/-- Break-style loop: a leading block of failures followed by a
resolved candidate stops the loop there; a truthy body is the result,
a falsy one fails the operation with the retained previous error (or
the generic one when no candidate had failed). -/
theorem probeBreakFrom_append_ok (gen : JsError) (errs : List JsError) :
    ∀ (last : Option JsError) (a : Js) (rest : List (Except JsError Js)),
    probeBreakFrom gen last (errs.map Except.error ++ .ok a :: rest) =
      (if truthy a then .ok a
       else .error (errs.getLast?.getD (last.getD gen)), errs.length + 1) := by
  induction errs with
  | nil => intro last a rest; rfl
  | cons e errs ih =>
    intro last a rest
    simp only [List.map_cons, List.cons_append, probeBreakFrom, List.append_eq]
    rw [ih]
    cases errs with
    | nil => simp
    | cons f fs =>
      cases h : (f :: fs).getLast? with
      | none => simp [List.getLast?_eq_none_iff] at h
      | some l => simp [h]

/-- Break-style loop: when every candidate fails, the retained error is
the last one and every candidate was attempted. -/
theorem probeBreakFrom_all_fail (gen e : JsError) (errs : List JsError) :
    ∀ last : Option JsError,
    probeBreakFrom gen last (errs.map Except.error ++ [.error e]) =
      (.error e, errs.length + 1) := by
  induction errs with
  | nil => intro last; rfl
  | cons f errs ih =>
    intro last
    simp only [List.map_cons, List.cons_append, probeBreakFrom, List.append_eq]
    rw [ih]
    simp

/-- Backend where `/projects` fails and every other call resolves with
a one-project array. -/
def apiProjectsSecond : Api := fun _ p _ =>
  if p == "/projects" then .error errA else .ok (.arr [proj1])

/-! ## Claim C3: list normalization -/

/-- C3: for every input value, `normalizeList` returns the value itself
when it is an array; returns the inner array when the value has an
`items` array field or, failing that, a `data` array field; and returns
the empty list for any other input (object without either field, null,
scalar, string). -/
theorem normalizeList_obj (fs : List (String × Js)) :
    normalizeList (.obj fs) =
      (match jsField (.obj fs) "items" with
      | .arr xs => xs
      | _ =>
        match jsField (.obj fs) "data" with
        | .arr xs => xs
        | _ => []) := rfl

theorem normalizeList_spec :
    (∀ xs : List Js, normalizeList (.arr xs) = xs)
  ∧ (∀ (v : Js) (xs : List Js), isArr v = false →
      jsField v "items" = .arr xs → normalizeList v = xs)
  ∧ (∀ (v : Js) (xs : List Js), isArr v = false →
      isArr (jsField v "items") = false →
      jsField v "data" = .arr xs → normalizeList v = xs)
  ∧ (∀ v : Js, isArr v = false → isArr (jsField v "items") = false →
      isArr (jsField v "data") = false → normalizeList v = []) := by
  refine ⟨fun xs => rfl, ?_, ?_, ?_⟩
  · intro v xs h1 h2
    cases v
    case obj fs => rw [normalizeList_obj, h2]
    all_goals simp_all [normalizeList, truthy, jsField, isArr]
  · intro v xs h1 h2 h3
    cases v
    case obj fs =>
      rw [normalizeList_obj]
      cases hw : jsField (Js.obj fs) "items" <;> simp_all [isArr]
    all_goals simp_all [normalizeList, truthy, jsField, isArr]
  · intro v h1 h2 h3
    cases v
    case obj fs =>
      rw [normalizeList_obj]
      cases hw : jsField (Js.obj fs) "items" <;> simp_all [isArr] <;>
        cases hd : jsField (Js.obj fs) "data" <;> simp_all [isArr]
    all_goals simp_all [normalizeList, truthy, jsField, isArr]

/-- Concrete instances of `normalizeList_spec`. -/
theorem normalizeList_spec_witness :
    normalizeList (.arr [.num 1]) = [.num 1]
  ∧ normalizeList (.obj [("items", .arr [.num 2])]) = [.num 2]
  ∧ normalizeList (.obj [("items", .num 0), ("data", .arr [.num 3])]) = [.num 3]
  ∧ normalizeList (.obj [("x", .num 1)]) = [] :=
  ⟨normalizeList_spec.1 [.num 1],
   normalizeList_spec.2.1 _ [.num 2] rfl rfl,
   normalizeList_spec.2.2.1 _ [.num 3] rfl rfl rfl,
   normalizeList_spec.2.2.2 _ rfl rfl rfl⟩


/-! ## Claim C1: first-success prober semantics -/

/-- C1 counterexample: in `submitInvite` the first candidate fails with
`errBoom` and the second candidate's HTTP call succeeds (resolving with
a null body), yet the operation's result is not that candidate's result:
the break-style loop falls into `if (!created) throw lastErr` and the
operation surfaces the first candidate's error. The loop does stop
after candidate 2 (`attempted = 2`). -/
theorem submitInvite_null_body_counterexample :
    apiInviteNull .POST "/users/invite" (inviteBody formInvite) = .error errBoom
  ∧ apiInviteNull .POST "/invite" (inviteBody formInvite) = .ok .null
  ∧ submitInvite apiInviteNull formInvite [] =
      ⟨[], [], [errorToast "Invite failed" (.str "boom")], 2⟩
  ∧ (probeBreak (jsError "Invite failed.")
      (inviteCandidates.map (fun p => apiInviteNull .POST p (inviteBody formInvite)))).1
      ≠ .ok .null :=
  ⟨rfl, rfl, rfl,
   fun h => Except.noConfusion
     (show Except.error errBoom = Except.ok Js.null from h)⟩

/-- C1 amended: when candidates 1..N-1 fail and candidate N succeeds,
exactly the first N candidates are attempted, in order, each once, and
nothing after N is attempted; the operation's result equals candidate
N's result in the return-style loops (list loads, login, register,
archive) unconditionally, and in the break-style write loops
(invite/create user, update user role) provided candidate N's body is
truthy (non-null/non-empty). -/
theorem prober_first_success :
    (∀ (gen : JsError) (errs : List JsError) (a : Js)
        (rest : List (Except JsError Js)),
      probe gen (errs.map Except.error ++ .ok a :: rest) =
        (.ok a, errs.length + 1))
  ∧ (∀ (gen : JsError) (errs : List JsError) (a : Js)
        (rest : List (Except JsError Js)), truthy a = true →
      probeBreak gen (errs.map Except.error ++ .ok a :: rest) =
        (.ok a, errs.length + 1))
  ∧ (∀ (api : Api) (e1 : JsError) (d : Js),
      api .GET "/projects" .undefined = .error e1 →
      api .GET "/api/projects" .undefined = .ok d →
      loadProjects api = ⟨.ok (normalizeList d), 2⟩) := by
  refine ⟨?_, ?_, ?_⟩
  · intro gen errs a rest
    exact probeFrom_append_ok gen errs none a rest
  · intro gen errs a rest h
    have h2 := probeBreakFrom_append_ok gen errs none a rest
    rw [h] at h2
    simpa [probeBreak] using h2
  · intro api e1 d h1 h2
    simp [loadProjects, probe, probeFrom, h1, h2, Except.map]

/-- Concrete instances of `prober_first_success`. -/
theorem prober_first_success_witness :
    probe errA ([errBoom].map Except.error ++ .ok (.str "x") :: [.ok .null]) =
      (.ok (.str "x"), 2)
  ∧ probeBreak errA ([errBoom].map Except.error ++ .ok (.str "x") :: [.ok .null]) =
      (.ok (.str "x"), 2)
  ∧ loadProjects apiProjectsSecond = ⟨.ok (normalizeList (.arr [proj1])), 2⟩ :=
  ⟨prober_first_success.1 errA [errBoom] (.str "x") [.ok .null],
   prober_first_success.2.1 errA [errBoom] (.str "x") [.ok .null] rfl,
   prober_first_success.2.2 apiProjectsSecond errA (.arr [proj1]) rfl rfl⟩

/-! ## Claim C2: exhausted prober semantics -/

/-- C2: in both loop styles, when every candidate fails the operation
fails with the error of the last candidate attempted, and an empty
candidate list fails with the operation's generic error; instantiated
at the projects load (GET `/projects` then `/api/projects`) and at
`login` (whose three candidates all failing surfaces the third
failure). -/
theorem prober_all_fail :
    (∀ gen : JsError, probe gen [] = (.error gen, 0))
  ∧ (∀ (gen e : JsError) (errs : List JsError),
      probe gen (errs.map Except.error ++ [.error e]) =
        (.error e, errs.length + 1))
  ∧ (∀ gen : JsError, probeBreak gen [] = (.error gen, 0))
  ∧ (∀ (gen e : JsError) (errs : List JsError),
      probeBreak gen (errs.map Except.error ++ [.error e]) =
        (.error e, errs.length + 1))
  ∧ (∀ (api : Api) (e1 e2 : JsError),
      api .GET "/projects" .undefined = .error e1 →
      api .GET "/api/projects" .undefined = .error e2 →
      loadProjects api = ⟨.error e2, 2⟩)
  ∧ (∀ (api : Api) (getMe : String → Except JsError Js)
        (email password : String) (e1 e2 e3 : JsError),
      api .POST "/auth/login"
        (.obj [("email", .str email), ("password", .str password)]) = .error e1 →
      api .POST "/login"
        (.obj [("email", .str email), ("password", .str password)]) = .error e2 →
      api .POST "/token"
        (.obj [("username", .str email), ("password", .str password)]) = .error e3 →
      login api getMe email password = ⟨.error e3, none⟩) := by
  refine ⟨fun gen => rfl, ?_, fun gen => rfl, ?_, ?_, ?_⟩
  · intro gen e errs
    exact probeFrom_all_fail gen e errs none
  · intro gen e errs
    exact probeBreakFrom_all_fail gen e errs none
  · intro api e1 e2 h1 h2
    simp [loadProjects, probe, probeFrom, h1, h2, Except.map]
  · intro api getMe email password e1 e2 e3 h1 h2 h3
    simp [login, loginCandidates, loginGo, h1, h2, h3]

/-- Concrete instances of `prober_all_fail`. -/
theorem prober_all_fail_witness :
    probe errA ([errBoom].map Except.error ++ [.error errB]) =
      (.error errB, 2)
  ∧ loadProjects apiAllFail = ⟨.error errB, 2⟩
  ∧ login apiAllFail getMeFail "u" "p" = ⟨.error errB, none⟩ :=
  ⟨prober_all_fail.2.1 errA errB [errBoom],
   prober_all_fail.2.2.2.2.1 apiAllFail errA errB rfl rfl,
   prober_all_fail.2.2.2.2.2 apiAllFail getMeFail "u" "p" errB errB errB
     rfl rfl rfl⟩

/-! ## Claim C10: falsy resolved bodies in the break-style writes -/

/-- C10: for invite/create user and update user role, a candidate whose
HTTP call resolves with a falsy (null/empty) body stops the candidate
loop there, yet the operation fails, surfacing the retained error of
the last previously failed candidate, or the operation's generic error
when no candidate had failed. -/
theorem writeOps_null_body :
    (∀ (gen : JsError) (errs : List JsError) (a : Js)
        (rest : List (Except JsError Js)), truthy a = false →
      probeBreak gen (errs.map Except.error ++ .ok a :: rest) =
        (.error (errs.getLast?.getD gen), errs.length + 1))
  ∧ (∀ (api : Api) (e1 : JsError) (users : List Js),
      api .POST "/users/invite" (inviteBody formInvite) = .error e1 →
      api .POST "/invite" (inviteBody formInvite) = .ok .null →
      submitInvite api formInvite users =
        ⟨[], users, [errorToast "Invite failed" e1.message], 2⟩)
  ∧ (∀ (api : Api) (users : List Js) (roleId : String),
      api .PUT ("/users/" ++ jsToString (.num 1) ++ "/role")
        (.obj [("roleId", .str roleId)]) = .ok .null →
      updateUserRole api (.num 1) roleId users =
        ⟨[], users, [errorToast "Update failed" (.str "Role update failed.")], 1⟩) := by
  refine ⟨?_, ?_, ?_⟩
  · intro gen errs a rest h
    have h2 := probeBreakFrom_append_ok gen errs none a rest
    rw [h] at h2
    simpa [probeBreak] using h2
  · intro api e1 users h1 h2
    have hv : validateUser formInvite.email = [] := rfl
    simp [submitInvite, hv, inviteCandidates, probeBreak, probeBreakFrom,
      h1, h2, truthy]
  · intro api users roleId h
    simp [updateUserRole, roleCandidates, probeBreak,
      probeBreakFrom, h, truthy, jsError]

/-- Concrete instances of `writeOps_null_body`. -/
theorem writeOps_null_body_witness :
    probeBreak errA ([errBoom].map Except.error ++ .ok .null :: []) =
      (.error ([errBoom].getLast?.getD errA), 2)
  ∧ submitInvite apiInviteNull formInvite [] =
      ⟨[], [], [errorToast "Invite failed" errBoom.message], 2⟩
  ∧ updateUserRole apiNullBody (.num 1) "2" [] =
      ⟨[], [], [errorToast "Update failed" (.str "Role update failed.")], 1⟩ :=
  ⟨writeOps_null_body.1 errA [errBoom] .null [] rfl,
   writeOps_null_body.2.1 apiInviteNull errBoom [] rfl rfl,
   writeOps_null_body.2.2 apiNullBody [] "2" rfl⟩

/-! ## Claim C7: archive falling back to delete -/

/-- C7: when the PATCH-to-archived candidate fails, DELETE is attempted
next on the same project; when DELETE also fails, exactly one error
notification is pushed and the projects list is left unchanged (in
particular the project keeps its id and status). -/
theorem archiveOrDelete_both_fail :
    ∀ (api : Api) (projects : List Js) (p : Js) (e1 e2 : JsError),
      api .PATCH ("/projects/" ++ jsToString (jsField p "id"))
        (.obj [("status", .str "archived")]) = .error e1 →
      api .DELETE ("/projects/" ++ jsToString (jsField p "id")) .undefined = .error e2 →
      archiveOrDelete api projects p =
        ⟨projects, [errorToast "Action failed" e2.message],
          [(.PATCH, "/projects/" ++ jsToString (jsField p "id")),
           (.DELETE, "/projects/" ++ jsToString (jsField p "id"))]⟩ := by
  intro api projects p e1 e2 h1 h2
  simp [archiveOrDelete, h1, h2]

/-- Concrete instance of `archiveOrDelete_both_fail`. -/
theorem archiveOrDelete_both_fail_witness :
    archiveOrDelete apiAllFail [proj1] proj1 =
      ⟨[proj1], [errorToast "Action failed" errB.message],
        [(.PATCH, "/projects/1"), (.DELETE, "/projects/1")]⟩ :=
  archiveOrDelete_both_fail apiAllFail [proj1] proj1 errB errB rfl rfl

/-! ## Claim C8: client-side validation before writes -/

/-- C8: validation runs before any network call in `save`, on both the
create and the update (edit) submission path: name `"Q2"` (length 2)
passes validation and the write is issued (POST `/projects` for a
create, PUT `/projects/:id` for an edit of a selected project with an
id); names `"Q"` (length 1) and `""` fail validation, attach the
field-level error to state, and issue no network call in either mode. -/
theorem save_validates_first :
    (∀ (api : Api) (projects : List Js) (sel : Js) (d st : String),
      validateProject "Q2" = []
      ∧ (save api "create" sel ⟨"Q2", d, st⟩ projects).errors = []
      ∧ (save api "create" sel ⟨"Q2", d, st⟩ projects).calls =
          [(.POST, "/projects")])
  ∧ (∀ (api : Api) (projects : List Js) (sel : Js) (d st : String),
      save api "create" sel ⟨"Q", d, st⟩ projects =
        ⟨[("name", "Name must be at least 2 characters.")], [], [],
          projects, "create", sel⟩)
  ∧ (∀ (api : Api) (projects : List Js) (sel : Js) (d st : String),
      save api "create" sel ⟨"", d, st⟩ projects =
        ⟨[("name", "Name must be at least 2 characters.")], [], [],
          projects, "create", sel⟩)
  ∧ (∀ (api : Api) (projects : List Js) (sel : Js) (d st : String),
      looseNeqNull (optChain sel "id") = true →
      (save api "edit" sel ⟨"Q2", d, st⟩ projects).errors = []
      ∧ (save api "edit" sel ⟨"Q2", d, st⟩ projects).calls =
          [(.PUT, "/projects/" ++ jsToString (jsField sel "id"))])
  ∧ (∀ (api : Api) (projects : List Js) (sel : Js) (d st : String),
      save api "edit" sel ⟨"Q", d, st⟩ projects =
        ⟨[("name", "Name must be at least 2 characters.")], [], [],
          projects, "edit", sel⟩)
  ∧ (∀ (api : Api) (projects : List Js) (sel : Js) (d st : String),
      save api "edit" sel ⟨"", d, st⟩ projects =
        ⟨[("name", "Name must be at least 2 characters.")], [], [],
          projects, "edit", sel⟩) := by
  have hq2 : validateProject "Q2" = [] := rfl
  have hq : validateProject "Q" =
      [("name", "Name must be at least 2 characters.")] := rfl
  have he : validateProject "" =
      [("name", "Name must be at least 2 characters.")] := rfl
  refine ⟨?_, ?_, ?_, ?_, ?_, ?_⟩
  · intro api projects sel d st
    refine ⟨hq2, ?_, ?_⟩ <;>
      cases h : api .POST "/projects" (projectBody ⟨"Q2", d, st⟩) <;>
      simp [save, hq2, h]
  · intro api projects sel d st
    simp [save, hq]
  · intro api projects sel d st
    simp [save, he]
  · intro api projects sel d st hid
    constructor <;>
      cases h : api .PUT ("/projects/" ++ jsToString (jsField sel "id"))
        (projectBody ⟨"Q2", d, st⟩) <;>
      simp [save, hq2, hid, h]
  · intro api projects sel d st
    simp [save, hq]
  · intro api projects sel d st
    simp [save, he]

/-- Concrete instances of `save_validates_first`, exercising the edit
path on a selected project with id 1. -/
theorem save_validates_first_witness :
    (save apiAllFail "edit" proj1 ⟨"Q2", "", "active"⟩ [proj1]).errors = []
  ∧ (save apiAllFail "edit" proj1 ⟨"Q2", "", "active"⟩ [proj1]).calls =
      [(.PUT, "/projects/" ++ jsToString (jsField proj1 "id"))]
  ∧ save apiAllFail "edit" proj1 ⟨"Q", "", "active"⟩ [proj1] =
      ⟨[("name", "Name must be at least 2 characters.")], [], [],
        [proj1], "edit", proj1⟩
  ∧ save apiAllFail "create" proj1 ⟨"", "", "active"⟩ [proj1] =
      ⟨[("name", "Name must be at least 2 characters.")], [], [],
        [proj1], "create", proj1⟩ :=
  ⟨(save_validates_first.2.2.2.1 apiAllFail [proj1] proj1 "" "active" rfl).1,
   (save_validates_first.2.2.2.1 apiAllFail [proj1] proj1 "" "active" rfl).2,
   save_validates_first.2.2.2.2.1 apiAllFail [proj1] proj1 "" "active",
   save_validates_first.2.2.1 apiAllFail [proj1] proj1 "" "active"⟩

/-! ## Claim C9: busy/idle emissions of `request` -/

/-- C9: every `request` call emits `onLoading(true)` exactly once,
right before the request is issued, and `onLoading(false)` exactly once
after it settles, whether the request succeeds, fails with a non-2xx
status, or fails in transport. -/
theorem request_loading_events :
    ∀ (parse : String → Option Js) (fetchResult : Except JsError FetchResponse),
      (request parse fetchResult).2 = [true, false] := by
  intro parse fr
  cases fr with
  | error e => rfl
  | ok res =>
    simp only [request]
    split <;> rfl

/-! ## Claim C5: token extraction and login candidate outcomes -/

/-- C5: token extraction checks `access_token`, then `token`, then
`jwt`, in that order; a login candidate resolving with
`{access_token:"abc"}` authenticates the session with stored credential
`"abc"`; and a resolved (2xx) candidate response with no extractable
token is treated as that candidate's failure, so the loop proceeds to
the next candidate carrying the no-token error. -/
theorem login_token_extraction :
    (∀ fs : List (String × Js),
      truthy (jsField (.obj fs) "access_token") = true →
      normalizeAuthResponse (.obj fs) = jsField (.obj fs) "access_token")
  ∧ (∀ fs : List (String × Js),
      truthy (jsField (.obj fs) "access_token") = false →
      truthy (jsField (.obj fs) "token") = true →
      normalizeAuthResponse (.obj fs) = jsField (.obj fs) "token")
  ∧ (∀ fs : List (String × Js),
      truthy (jsField (.obj fs) "access_token") = false →
      truthy (jsField (.obj fs) "token") = false →
      truthy (jsField (.obj fs) "jwt") = true →
      normalizeAuthResponse (.obj fs) = jsField (.obj fs) "jwt")
  ∧ (∀ (api : Api) (getMe : String → Except JsError Js) (email password : String),
      api .POST "/auth/login"
        (.obj [("email", .str email), ("password", .str password)]) =
          .ok (.obj [("access_token", .str "abc")]) →
      login api getMe email password =
        ⟨.ok (.str "abc", bestEffortGetMe getMe), some (.str "abc")⟩)
  ∧ (∀ (api : Api) (getMe : String → Except JsError Js)
        (c : String × Js) (rest : List (String × Js)) (last : Option JsError)
        (data : Js),
      api .POST c.1 c.2 = .ok data →
      truthy (normalizeAuthResponse data) = false →
      loginGo api getMe (c :: rest) last =
        loginGo api getMe rest
          (some (jsError "Login response did not include a token."))) := by
  refine ⟨?_, ?_, ?_, ?_, ?_⟩
  · intro fs h
    simp [normalizeAuthResponse, h, show truthy (Js.obj fs) = true from rfl,
      show typeofObject (Js.obj fs) = true from rfl]
  · intro fs h1 h2
    simp [normalizeAuthResponse, h1, h2,
      show truthy (Js.obj fs) = true from rfl,
      show typeofObject (Js.obj fs) = true from rfl]
  · intro fs h1 h2 h3
    simp [normalizeAuthResponse, h1, h2, h3,
      show truthy (Js.obj fs) = true from rfl,
      show typeofObject (Js.obj fs) = true from rfl]
  · intro api getMe email password h
    simp [login, loginCandidates, loginGo, h, normalizeAuthResponse,
      typeofObject, jsField, truthy]
  · intro api getMe c rest last data h1 h2
    simp [loginGo, h1, h2]

/-- Concrete instances of `login_token_extraction`. -/
theorem login_token_extraction_witness :
    normalizeAuthResponse (.obj [("access_token", .str "abc")]) =
      jsField (.obj [("access_token", .str "abc")]) "access_token"
  ∧ normalizeAuthResponse (.obj [("token", .str "t1")]) =
      jsField (.obj [("token", .str "t1")]) "token"
  ∧ normalizeAuthResponse (.obj [("jwt", .str "j1")]) =
      jsField (.obj [("jwt", .str "j1")]) "jwt"
  ∧ login apiLoginOk getMeFail "u" "p" =
      ⟨.ok (.str "abc", bestEffortGetMe getMeFail), some (.str "abc")⟩
  ∧ loginGo apiNoToken getMeFail [("/auth/login", .obj [])] none =
      loginGo apiNoToken getMeFail []
        (some (jsError "Login response did not include a token.")) :=
  ⟨login_token_extraction.1 [("access_token", .str "abc")] rfl,
   login_token_extraction.2.1 [("token", .str "t1")] rfl rfl,
   login_token_extraction.2.2.1 [("jwt", .str "j1")] rfl rfl rfl,
   login_token_extraction.2.2.2.1 apiLoginOk getMeFail "u" "p" rfl,
   login_token_extraction.2.2.2.2 apiNoToken getMeFail
     ("/auth/login", .obj []) [] none (.obj []) rfl rfl⟩

/-! ## Claim C6: non-2xx error construction -/

/-- C6 counterexample: for status 500 with body text `"oops"` — a valid
JSON document encoding the string `oops` — the constructed message is
the parsed string `oops`. The claim's stated priority would demand the
generic `Request failed (500)` here (the body was JSON and carries no
`detail`/`message`/`error` field), and `oops` is not the raw text
`"oops"` either: the code's fourth fallback keys on the parsed body
being a string, not on the body not being JSON. -/
theorem request_message_counterexample :
    (request parseOops (.ok ⟨500, "\"oops\""⟩)).1 =
      .error ⟨.str "oops", some 500, .str "oops"⟩
  ∧ "oops" ≠ "\"oops\""
  ∧ "oops" ≠ "Request failed (500)" :=
  ⟨rfl, by decide, by decide⟩

/-- C6 amended: a non-2xx response fails with an error carrying the
resolved status, the parsed-or-raw body, and a message that is the
first truthy value among the body's `detail`, `message` and `error`
fields, else the parsed body itself when it is a nonempty string —
covering both raw non-JSON text and JSON-encoded strings — else the
generic `Request failed (<status>)`. -/
theorem request_error_spec :
    (∀ (parse : String → Option Js) (res : FetchResponse),
      ¬(200 ≤ res.status ∧ res.status ≤ 299) →
      (request parse (.ok res)).1 =
        .error ⟨requestErrMessage (safeJsonParse parse res.text) res.status,
          some res.status, safeJsonParse parse res.text⟩)
  ∧ (∀ (d : Js) (st : Int),
      truthy (jsField d "detail") = true →
      requestErrMessage d st = jsField d "detail")
  ∧ (∀ (d : Js) (st : Int),
      truthy (jsField d "detail") = false →
      truthy (jsField d "message") = true →
      requestErrMessage d st = jsField d "message")
  ∧ (∀ (d : Js) (st : Int),
      truthy (jsField d "detail") = false →
      truthy (jsField d "message") = false →
      truthy (jsField d "error") = true →
      requestErrMessage d st = jsField d "error")
  ∧ (∀ (s : String) (st : Int), (s == "") = false →
      requestErrMessage (.str s) st = .str s)
  ∧ (∀ (d : Js) (st : Int),
      truthy (jsField d "detail") = false →
      truthy (jsField d "message") = false →
      truthy (jsField d "error") = false →
      (∀ s : String, d = .str s → s = "") →
      requestErrMessage d st =
        .str ("Request failed (" ++ toString st ++ ")")) := by
  refine ⟨?_, ?_, ?_, ?_, ?_, ?_⟩
  · intro parse res h
    simp [request, h]
  · intro d st h
    cases d <;> simp_all [requestErrMessage, jsOr, jsAnd, truthy, jsField]
  · intro d st h1 h2
    cases d <;> simp_all [requestErrMessage, jsOr, jsAnd, truthy, jsField]
  · intro d st h1 h2 h3
    cases d <;> simp_all [requestErrMessage, jsOr, jsAnd, truthy, jsField]
  · intro s st h
    have hs : ¬ s = "" := by simpa using h
    simp [requestErrMessage, jsOr, jsAnd, truthy, jsField, hs]
  · intro d st h1 h2 h3 h4
    cases d
    case str s =>
      have hs : s = "" := h4 s rfl
      subst hs
      simp [requestErrMessage, jsOr, jsAnd, truthy, jsField]
    case bool b =>
      cases b <;> simp [requestErrMessage, jsOr, jsAnd, truthy, jsField]
    case num n =>
      rcases eq_or_ne n 0 with hn | hn <;>
        simp_all [requestErrMessage, jsOr, jsAnd, truthy, jsField]
    all_goals simp_all [requestErrMessage, jsOr, jsAnd, truthy, jsField]

/-- Concrete instances of `request_error_spec`. -/
theorem request_error_spec_witness :
    (request parseOops (.ok ⟨500, "nope"⟩)).1 =
      .error ⟨requestErrMessage (safeJsonParse parseOops "nope") 500,
        some 500, safeJsonParse parseOops "nope"⟩
  ∧ requestErrMessage (.obj [("detail", .str "d1")]) 500 =
      jsField (.obj [("detail", .str "d1")]) "detail"
  ∧ requestErrMessage (.obj [("message", .str "m1")]) 500 =
      jsField (.obj [("message", .str "m1")]) "message"
  ∧ requestErrMessage (.obj [("error", .str "e1")]) 500 =
      jsField (.obj [("error", .str "e1")]) "error"
  ∧ requestErrMessage (.str "raw text") 404 = .str "raw text"
  ∧ requestErrMessage (.obj []) 404 =
      .str ("Request failed (" ++ toString (404 : Int) ++ ")") :=
  ⟨request_error_spec.1 parseOops ⟨500, "nope"⟩ (by decide),
   request_error_spec.2.1 (.obj [("detail", .str "d1")]) 500 rfl,
   request_error_spec.2.2.1 (.obj [("message", .str "m1")]) 500 rfl rfl,
   request_error_spec.2.2.2.1 (.obj [("error", .str "e1")]) 500 rfl rfl rfl,
   request_error_spec.2.2.2.2.1 "raw text" 404 rfl,
   request_error_spec.2.2.2.2.2 (.obj []) 404 rfl rfl rfl
     (fun s h => nomatch h)⟩

/-! ## Claim C4: the loading signal -/

/-- C4 counterexample: with `setLoading` calls true@0, true@5, false@10,
false@300 — two requests spanning [0,300) and [5,10) — the first
request is still in flight at t=200, yet the signal reads idle: the
hide timer scheduled at 10+150=160 by the short request's completion
fired at 160. `setLoading` keeps no count of outstanding requests, so
"busy whenever at least one request is in flight" fails. -/
theorem loading_signal_counterexample :
    (0 ≤ 200 ∧ 200 < 300)
  ∧ signalAt [(0, true), (5, true), (10, false), (300, false)] 200 = false :=
  ⟨⟨by decide, by decide⟩, rfl⟩

/-- Replaying a call that has already happened at query time. -/
theorem signalGo_cons_le {q t : Nat} (h : t ≤ q) (b : Bool)
    (rest : List (Nat × Bool)) (s : UIState) :
    signalGo q ((t, b) :: rest) s =
      signalGo q rest (applyCall t b (fireTimer t s)) := by
  simp [signalGo, h]

/-- Stopping the replay at a call later than the query time. -/
theorem signalGo_cons_gt {q t : Nat} (h : ¬ t ≤ q) (b : Bool)
    (rest : List (Nat × Bool)) (s : UIState) :
    signalGo q ((t, b) :: rest) s = (fireTimer q s).loading := by
  simp [signalGo, h]

/-- A pending timer that is not yet due leaves the state alone. -/
theorem fireTimer_early (t due : Nat) (ld : Bool) (h : ¬ due ≤ t) :
    fireTimer t ⟨ld, some due⟩ = ⟨ld, some due⟩ := by
  simp [fireTimer, h]

/-- A pending timer that is due hides the signal. -/
theorem fireTimer_due (t due : Nat) (ld : Bool) (h : due ≤ t) :
    fireTimer t ⟨ld, some due⟩ = ⟨false, none⟩ := by
  simp [fireTimer, h]

/-- C4 amended: the signal turns on with every request start and goes
idle only once the 150ms grace timer after a completion call runs out
uncancelled, so back-to-back activity produces no idle blip; but it is
not guaranteed busy whenever a request is in flight (see the
counterexample). For the spec scenario — requests starting at `t0` and
`t0+10`, completing at `t0+40` and `t0+50` — the signal is busy
continuously on `[t0, t0+200)` and idle from `t0+200` on, with no idle
blip between the two completions. -/
theorem loading_signal_scenario (t0 q : Nat) :
    (t0 ≤ q → q < t0 + 200 → signalAt (sched t0) q = true)
  ∧ (t0 + 200 ≤ q → signalAt (sched t0) q = false) := by
  have hg : graceMs = 150 := rfl
  have step1 : ∀ s : UIState, applyCall t0 true (fireTimer t0 s) = ⟨true, none⟩ :=
    fun s => rfl
  constructor
  · intro h1 h2
    rw [signalAt, sched, signalGo_cons_le h1, step1]
    rcases lt_or_ge q (t0 + 10) with hq1 | hq1
    · rw [signalGo_cons_gt (by omega)]
      rfl
    · rw [signalGo_cons_le hq1]
      rw [show applyCall (t0 + 10) true (fireTimer (t0 + 10) ⟨true, none⟩) =
            ⟨true, none⟩ from rfl]
      rcases lt_or_ge q (t0 + 40) with hq2 | hq2
      · rw [signalGo_cons_gt (by omega)]
        rfl
      · rw [signalGo_cons_le hq2]
        rw [show applyCall (t0 + 40) false (fireTimer (t0 + 40) ⟨true, none⟩) =
              ⟨true, some (t0 + 40 + graceMs)⟩ from rfl]
        rcases lt_or_ge q (t0 + 50) with hq3 | hq3
        · rw [signalGo_cons_gt (by omega),
              fireTimer_early q (t0 + 40 + graceMs) true (by omega)]
        · rw [signalGo_cons_le hq3,
              fireTimer_early (t0 + 50) (t0 + 40 + graceMs) true (by omega),
              show applyCall (t0 + 50) false ⟨true, some (t0 + 40 + graceMs)⟩ =
                ⟨true, some (t0 + 50 + graceMs)⟩ from rfl,
              show signalGo q [] ⟨true, some (t0 + 50 + graceMs)⟩ =
                (fireTimer q ⟨true, some (t0 + 50 + graceMs)⟩).loading from rfl,
              fireTimer_early q (t0 + 50 + graceMs) true (by omega)]
  · intro h
    rw [signalAt, sched, signalGo_cons_le (by omega : t0 ≤ q), step1,
        signalGo_cons_le (by omega : t0 + 10 ≤ q),
        show applyCall (t0 + 10) true (fireTimer (t0 + 10) ⟨true, none⟩) =
          ⟨true, none⟩ from rfl,
        signalGo_cons_le (by omega : t0 + 40 ≤ q),
        show applyCall (t0 + 40) false (fireTimer (t0 + 40) ⟨true, none⟩) =
          ⟨true, some (t0 + 40 + graceMs)⟩ from rfl,
        signalGo_cons_le (by omega : t0 + 50 ≤ q),
        fireTimer_early (t0 + 50) (t0 + 40 + graceMs) true (by omega),
        show applyCall (t0 + 50) false ⟨true, some (t0 + 40 + graceMs)⟩ =
          ⟨true, some (t0 + 50 + graceMs)⟩ from rfl,
        show signalGo q [] ⟨true, some (t0 + 50 + graceMs)⟩ =
          (fireTimer q ⟨true, some (t0 + 50 + graceMs)⟩).loading from rfl,
        fireTimer_due q (t0 + 50 + graceMs) true (by omega)]

/-- Concrete instances of `loading_signal_scenario`. -/
theorem loading_signal_scenario_witness :
    signalAt (sched 0) 100 = true ∧ signalAt (sched 0) 250 = false :=
  ⟨(loading_signal_scenario 0 100).1 (by decide) (by decide),
   (loading_signal_scenario 0 250).2 (by decide)⟩
